import Mathlib

/-!
A shallow embedding of the repository's two source files,
`src/layers/AudioLayer.cpp` and `src/layers/SceneBuildLayer.cpp`.

The code is application glue over an external engine ("florp", a graphics
layer, an entt ECS registry and an audio engine).  We model the engine as a
state (`World`) holding the one scene this program builds, the stores of
framebuffer / shader / material objects the code allocates (object identity =
index of allocation), and the ordered trace of engine calls the code makes
(`Call`).  Every function of the repository becomes a state-passing Lean
function whose steps follow the C++ statements one by one.  Floating point
literals are modelled as rationals; matrices produced by glm calls are kept
symbolic (the call and its arguments are recorded, not the resulting floats).
-/

/-- glm::vec3, with rational components. -/
structure Vec3 where
  x : ℚ
  y : ℚ
  z : ℚ
deriving DecidableEq

/-- glm::vec4, with rational components (field `w` is glm's fourth component;
`color.r` aliases `x`). -/
structure Vec4 where
  x : ℚ
  y : ℚ
  z : ℚ
  w : ℚ
deriving DecidableEq

/-- An angle as this code produces one: always `glm::radians` applied to a
degree value.  Kept symbolic (the degree argument is recorded). -/
inductive Angle where
  | radiansOfDeg (deg : ℚ)
deriving DecidableEq

/-- A glm::mat4 as produced by the calls this code makes.  The only matrix
construction in the repository is `glm::perspective(fov, aspect, near, far)`;
it is kept symbolic. -/
inductive Mat4 where
  | perspective (fov : Angle) (aspect nearPlane farPlane : ℚ)
deriving DecidableEq

/-- RenderTargetAttachment values the code uses. -/
inductive RenderTargetAttachment where
  | Color0
  | Color1
  | Color2
  | Depth
deriving DecidableEq

/-- RenderTargetType values the code uses. -/
inductive RenderTargetType where
  | ColorRgb8
  | ColorRgb10
  | Depth32
deriving DecidableEq

/-- RenderBufferDesc: in the source a default-constructed struct whose three
fields are then assigned; in every use all three are set, so we record the
three assigned values. -/
structure RenderBufferDesc where
  ShaderReadable : Bool
  Attachment : RenderTargetAttachment
  Format : RenderTargetType
deriving DecidableEq

/-- A FrameBuffer object as the engine holds it: the constructor arguments
(width, height, and the optional third argument), the attachments added, the
validation flag, the debug name, and — for objects produced by `Clone` — which
object they were cloned from (`none` for a fresh constructor call). -/
structure FrameBufferObj where
  width : Nat
  height : Nat
  samples : Option Nat
  attachments : List RenderBufferDesc := []
  validated : Bool := false
  debugName : Option String := none
  clonedFrom : Option Nat := none
deriving DecidableEq

/-- CameraComponent (fields as assigned by SceneBuildLayer.cpp lines 230-233).
Buffers are framebuffer-object indices; `none` models the default-constructed
(null / unset) state. -/
structure CameraComponent where
  BackBuffer : Option Nat := none
  FrontBuffer : Option Nat := none
  IsMainCamera : Bool := false
  Projection : Option Mat4 := none
deriving DecidableEq

/-- ShadowLight component (fields as assigned by CreateShadowCaster). -/
structure ShadowLight where
  ShadowBuffer : Option Nat := none
  Projection : Option Mat4 := none
  Attenuation : ℚ := 0
  Color : Vec3 := ⟨0, 0, 0⟩
deriving DecidableEq

/-- PointLightComponent (fields as assigned by SceneBuildLayer.cpp 252-256). -/
structure PointLightComponent where
  Color : Vec3 := ⟨0, 0, 0⟩
  Attenuation : ℚ := 0
deriving DecidableEq

/-- florp::game::Transform, as far as this code drives it: a position and the
last `LookAt(target, up)` request.  The engine assigns a default Transform to
every created entity (the code fetches it with `Registry().get<Transform>`). -/
structure Transform where
  position : Vec3 := ⟨0, 0, 0⟩
  lookTarget : Option (Vec3 × Vec3) := none
deriving DecidableEq

/-- Transform::SetPosition. -/
def Transform.SetPosition (t : Transform) (p : Vec3) : Transform :=
  { t with position := p }

/-- Transform::LookAt. -/
def Transform.LookAt (t : Transform) (target up : Vec3) : Transform :=
  { t with lookTarget := some (target, up) }

/-- RenderableComponent: a baked mesh (identified by the obj file it was baked
from) and a material (index into the material store); `none` models the
default-constructed state. -/
structure RenderableComponent where
  Mesh : Option String := none
  Material : Option Nat := none
deriving DecidableEq

/-- The behaviour components this code attaches (`scene->AddBehaviour<B>`), with
their constructor arguments. -/
inductive Behaviour where
  | control (input : Vec3)
  | rotate (speed : Vec3)
  | random
  | lightFlicker (a b c : ℚ)
deriving DecidableEq

/-- ShaderStageType values the code uses. -/
inductive ShaderStageType where
  | VertexShader
  | FragmentShader
deriving DecidableEq

/-- A Shader object: the parts loaded into it and whether Link was called. -/
structure ShaderObj where
  parts : List (ShaderStageType × String) := []
  linked : Bool := false
deriving DecidableEq

/-- A value passed to Material::Set: a texture loaded from a file (with the
three boolean arguments of Texture2D::LoadFromFile) or a float. -/
inductive MaterialValue where
  | tex (file : String) (b1 b2 b3 : Bool)
  | flt (v : ℚ)
deriving DecidableEq

/-- A Material object: the shader it was constructed over and the `Set` calls
applied to it, in order. -/
structure MaterialObj where
  shader : Nat
  settings : List (String × MaterialValue) := []
deriving DecidableEq

/-- InternalFormat (only the value this code uses). -/
inductive InternalFormat where
  | RGBA8
deriving DecidableEq

/-- MagFilter (only the value this code uses). -/
inductive MagFilter where
  | Nearest
deriving DecidableEq

/-- MinFilter (only the value this code uses). -/
inductive MinFilter where
  | Nearest
deriving DecidableEq

/-- WrapMode (only the value this code uses). -/
inductive WrapMode where
  | ClampToEdge
deriving DecidableEq

/-- PixelFormat (only the value this code uses). -/
inductive PixelFormat where
  | Rgba
deriving DecidableEq

/-- PixelType (only the value this code uses). -/
inductive PixelType where
  | Float
deriving DecidableEq

/-- Texture2dDescription, with the fields CreateSolidTexture assigns. -/
structure Texture2dDescription where
  Width : Nat
  Height : Nat
  Format : InternalFormat
  MagFilter : MagFilter
  MinFilter : MinFilter
  MipmapLevels : Nat
  WrapS : WrapMode
  WrapT : WrapMode
deriving DecidableEq

/-- Texture2dData, with the fields CreateSolidTexture assigns.  The source
field `Type` is written `DataType` (Type is a Lean keyword); `DataPtr` models
`data.Data = &color.r`: the one RGBA pixel fed to the texture. -/
structure Texture2dData where
  Width : Nat
  Height : Nat
  Format : PixelFormat
  DataType : PixelType
  DataPtr : Vec4
deriving DecidableEq

/-- The entity-component state of the one scene this program builds.  Entities
are the numbers 0, 1, ... below `nextEntity`; each component store maps entity
ids to components in assignment order. -/
structure Scene where
  nextEntity : Nat := 0
  transforms : List (Nat × Transform) := []
  renderables : List (Nat × RenderableComponent) := []
  cameras : List (Nat × CameraComponent) := []
  pointLights : List (Nat × PointLightComponent) := []
  shadowLights : List (Nat × ShadowLight) := []
  behaviours : List (Nat × Behaviour) := []
deriving DecidableEq

/-- One engine (or library) call made by this code, with the arguments the
call site passes.  `spawnThread` and `scheduleDeferred` are the calls an
engine API could offer for starting a thread or deferring work; this
repository's code never makes either. -/
inductive Call where
  | audioEngineInit
  | audioLoadSound (file : String) (b3d looping stream : Bool)
  | audioPlaySound (file : String)
  | audioUpdate
  | audioShutdown
  | registerScene (sceneName : String)
  | setCurrentScene (sceneName : String)
  | loadObj (file : String) (baseColor : Vec4)
  | makeShader (id : Nat)
  | loadShaderPart (id : Nat) (stage : ShaderStageType) (file : String)
  | linkShader (id : Nat)
  | loadTextureFile (file : String) (b1 b2 b3 : Bool)
  | makeMaterial (id shaderId : Nat)
  | materialSet (id : Nat) (key : String) (value : MaterialValue)
  | bakeMesh (file : String)
  | makeFrameBuffer (id width height : Nat) (samples : Option Nat)
  | fbAddAttachment (id : Nat) (desc : RenderBufferDesc)
  | fbValidate (id : Nat)
  | fbSetDebugName (id : Nat) (debugName : String)
  | fbClone (id newId : Nat)
  | createEntity (e : Nat)
  | assignRenderable (e : Nat)
  | assignCamera (e : Nat)
  | assignPointLight (e : Nat)
  | assignShadowLight (e : Nat)
  | getTransform (e : Nat)
  | addBehaviour (e : Nat) (b : Behaviour)
  | getWindowWidth
  | getWindowHeight
  | makeTexture2D (id : Nat) (desc : Texture2dDescription)
  | texSetData (id : Nat) (data : Texture2dData)
  | spawnThread (tid : Nat)
  | scheduleDeferred (tid : Nat)
deriving DecidableEq

/-- The engine state this code drives: the trace of calls made so far (stored
most-recent-first; `World.calls` gives it in call order), the scene manager's
registered scene names and current scene, the entity-component state of the
scene being built, and the allocation stores for framebuffers, shaders and
materials (object identity = index). -/
structure World where
  rtrace : List Call := []
  registeredScenes : List String := []
  currentScene : Option String := none
  scene : Scene := {}
  frameBuffers : List FrameBufferObj := []
  shaders : List ShaderObj := []
  materials : List MaterialObj := []
deriving DecidableEq

/-- The engine state at program start: nothing registered, nothing allocated,
no call made. -/
def World.init : World := {}

/-- Record one engine call in the trace. -/
def emit (c : Call) (w : World) : World :=
  { w with rtrace := c :: w.rtrace }

/-- The calls made so far, in the order the code made them. -/
def World.calls (w : World) : List Call :=
  w.rtrace.reverse

/-- Replace the element at index `i` by `f` of it (identity past the end). -/
def updateAt {α : Type} (i : Nat) (f : α → α) : List α → List α
  | [] => []
  | a :: rest =>
    match i with
    | 0 => f a :: rest
    | j + 1 => a :: updateAt j f rest

/-- Apply `f` to every component stored for entity `e`. -/
def updateEntityComp {α : Type} (e : Nat) (f : α → α)
    (l : List (Nat × α)) : List (Nat × α) :=
  l.map (fun p => if p.1 = e then (p.1, f p.2) else p)

/-- SceneManager::RegisterScene: registers the name and yields a fresh, empty
scene (this program registers exactly one scene, which `World.scene` holds). -/
def SceneManager.RegisterScene (sceneName : String) (w : World) : World :=
  emit (Call.registerScene sceneName)
    { w with registeredScenes := w.registeredScenes ++ [sceneName], scene := {} }

/-- SceneManager::SetCurrentScene. -/
def SceneManager.SetCurrentScene (sceneName : String) (w : World) : World :=
  emit (Call.setCurrentScene sceneName) { w with currentScene := some sceneName }

/-- MeshData, as far as this code observes it: the obj file it came from and
the base color passed to the loader. -/
structure MeshData where
  source : String
  baseColor : Vec4
deriving DecidableEq

/-- ObjLoader::LoadObj. -/
def ObjLoader.LoadObj (file : String) (baseColor : Vec4) (w : World) :
    MeshData × World :=
  ({ source := file, baseColor := baseColor }, emit (Call.loadObj file baseColor) w)

/-- MeshBuilder::Bake: the baked mesh is identified by its source obj file. -/
def MeshBuilder.Bake (d : MeshData) (w : World) : String × World :=
  (d.source, emit (Call.bakeMesh d.source) w)

/-- std::make_shared<Shader>(): allocate a fresh shader object. -/
def makeShaderObj (w : World) : Nat × World :=
  let id := w.shaders.length
  (id, emit (Call.makeShader id) { w with shaders := w.shaders ++ [{}] })

/-- Shader::LoadPart. -/
def Shader.LoadPart (id : Nat) (stage : ShaderStageType) (file : String)
    (w : World) : World :=
  emit (Call.loadShaderPart id stage file)
    { w with shaders :=
        updateAt id (fun s => { s with parts := s.parts ++ [(stage, file)] }) w.shaders }

/-- Shader::Link. -/
def Shader.Link (id : Nat) (w : World) : World :=
  emit (Call.linkShader id)
    { w with shaders := updateAt id (fun s => { s with linked := true }) w.shaders }

/-- Texture2D::LoadFromFile: yields the texture value handed to Material::Set. -/
def Texture2D.LoadFromFile (file : String) (b1 b2 b3 : Bool) (w : World) :
    MaterialValue × World :=
  (MaterialValue.tex file b1 b2 b3, emit (Call.loadTextureFile file b1 b2 b3) w)

/-- std::make_shared<Material>(shader): allocate a fresh material over a shader. -/
def makeMaterialObj (shaderId : Nat) (w : World) : Nat × World :=
  let id := w.materials.length
  (id, emit (Call.makeMaterial id shaderId)
    { w with materials := w.materials ++ [{ shader := shaderId }] })

/-- Material::Set. -/
def Material.Set (id : Nat) (key : String) (v : MaterialValue) (w : World) : World :=
  emit (Call.materialSet id key v)
    { w with materials :=
        updateAt id (fun m => { m with settings := m.settings ++ [(key, v)] }) w.materials }

/-- std::make_shared<FrameBuffer>(width, height[, samples]): allocate a fresh
framebuffer object. -/
def makeFrameBufferObj (width height : Nat) (samples : Option Nat) (w : World) :
    Nat × World :=
  let id := w.frameBuffers.length
  (id, emit (Call.makeFrameBuffer id width height samples)
    { w with frameBuffers :=
        w.frameBuffers ++ [{ width := width, height := height, samples := samples }] })

/-- FrameBuffer::AddAttachment. -/
def FrameBuffer.AddAttachment (id : Nat) (d : RenderBufferDesc) (w : World) : World :=
  emit (Call.fbAddAttachment id d)
    { w with frameBuffers :=
        updateAt id (fun f => { f with attachments := f.attachments ++ [d] }) w.frameBuffers }

/-- FrameBuffer::Validate. -/
def FrameBuffer.Validate (id : Nat) (w : World) : World :=
  emit (Call.fbValidate id)
    { w with frameBuffers :=
        updateAt id (fun f => { f with validated := true }) w.frameBuffers }

/-- FrameBuffer::SetDebugName. -/
def FrameBuffer.SetDebugName (id : Nat) (debugName : String) (w : World) : World :=
  emit (Call.fbSetDebugName id debugName)
    { w with frameBuffers :=
        updateAt id (fun f => { f with debugName := some debugName }) w.frameBuffers }

/-- FrameBuffer::Clone: a fresh object with the source object's configuration,
marked as cloned from it. -/
def FrameBuffer.Clone (id : Nat) (w : World) : Nat × World :=
  let newId := w.frameBuffers.length
  let src := (w.frameBuffers.get? id).getD { width := 0, height := 0, samples := none }
  (newId, emit (Call.fbClone id newId)
    { w with frameBuffers := w.frameBuffers ++ [{ src with clonedFrom := some id }] })

/-- Scene::CreateEntity: allocates the next entity id; the engine gives every
entity a default Transform (the code then fetches it with
`Registry().get<Transform>`). -/
def Scene.CreateEntity (w : World) : Nat × World :=
  let e := w.scene.nextEntity
  (e, emit (Call.createEntity e)
    { w with scene :=
        { w.scene with nextEntity := e + 1, transforms := w.scene.transforms ++ [(e, {})] } })

/-- Scene::AddBehaviour<B>(entity, args...). -/
def Scene.AddBehaviour (e : Nat) (b : Behaviour) (w : World) : World :=
  emit (Call.addBehaviour e b)
    { w with scene := { w.scene with behaviours := w.scene.behaviours ++ [(e, b)] } }

namespace Registry

/-- Registry().assign<RenderableComponent>(e): attach a default component. -/
def assignRenderable (e : Nat) (w : World) : World :=
  emit (Call.assignRenderable e)
    { w with scene := { w.scene with renderables := w.scene.renderables ++ [(e, {})] } }

/-- Registry().assign<CameraComponent>(e): attach a default component. -/
def assignCamera (e : Nat) (w : World) : World :=
  emit (Call.assignCamera e)
    { w with scene := { w.scene with cameras := w.scene.cameras ++ [(e, {})] } }

/-- Registry().assign<PointLightComponent>(e): attach a default component. -/
def assignPointLight (e : Nat) (w : World) : World :=
  emit (Call.assignPointLight e)
    { w with scene := { w.scene with pointLights := w.scene.pointLights ++ [(e, {})] } }

end Registry

/-- A member write through a reference obtained from
Registry().get<Transform>(e): update entity e's transform in place. -/
def setTransform (e : Nat) (f : Transform → Transform) (w : World) : World :=
  { w with scene := { w.scene with transforms := updateEntityComp e f w.scene.transforms } }

/-- A member write through the RenderableComponent& returned by assign. -/
def setRenderable (e : Nat) (f : RenderableComponent → RenderableComponent)
    (w : World) : World :=
  { w with scene := { w.scene with renderables := updateEntityComp e f w.scene.renderables } }

/-- A member write through the CameraComponent& returned by assign. -/
def setCamera (e : Nat) (f : CameraComponent → CameraComponent) (w : World) : World :=
  { w with scene := { w.scene with cameras := updateEntityComp e f w.scene.cameras } }

/-- A member write through the PointLightComponent& returned by assign. -/
def setPointLight (e : Nat) (f : PointLightComponent → PointLightComponent)
    (w : World) : World :=
  { w with scene := { w.scene with pointLights := updateEntityComp e f w.scene.pointLights } }

namespace AudioLayer

/-- AudioLayer::Initialize (AudioLayer.cpp lines 4-9):
AudioEngine::Init(); AudioEngine::LoadSound("AH.wav", false, true, true);
AudioEngine::PlaySound("AH.wav"). -/
def Initialize (w : World) : World :=
  let w := emit Call.audioEngineInit w
  let w := emit (Call.audioLoadSound "AH.wav" false true true) w
  let w := emit (Call.audioPlaySound "AH.wav") w
  w

/-- AudioLayer::Shutdown (AudioLayer.cpp lines 11-14). -/
def Shutdown (w : World) : World :=
  emit Call.audioShutdown w

/-- AudioLayer::Update (AudioLayer.cpp lines 16-19). -/
def Update (w : World) : World :=
  emit Call.audioUpdate w

end AudioLayer

/-- CreateShadowCaster (SceneBuildLayer.cpp lines 32-67).  `passEntityOut`
models whether the `entityOut` pointer argument is non-null; the third result
is the value written through it (`none` when the pointer is null).  The second
result is the entity whose ShadowLight component the C++ function returns a
reference to.  The four member writes through the `ShadowLight&` reference are
folded into the component record attached at the assign (the reference is
local and only the engine's registry sees the component). -/
def CreateShadowCaster (w : World) (passEntityOut : Bool) (pos target up : Vec3)
    (distance fov : ℚ) (bufferSize : Nat × Nat) (debugName : Option String) :
    World × Nat × Option Nat :=
  -- RenderBufferDesc depth: ShaderReadable, Depth attachment, Depth32 format
  let depth : RenderBufferDesc :=
    { ShaderReadable := true, Attachment := RenderTargetAttachment.Depth,
      Format := RenderTargetType.Depth32 }
  -- FrameBuffer::Sptr shadowBuffer = std::make_shared<FrameBuffer>(bufferSize.x, bufferSize.y)
  let (shadowBuffer, w) := makeFrameBufferObj bufferSize.1 bufferSize.2 none w
  let w := FrameBuffer.AddAttachment shadowBuffer depth w
  let w := FrameBuffer.Validate shadowBuffer w
  -- if (name != nullptr) shadowBuffer->SetDebugName(name)
  let w :=
    match debugName with
    | some n => FrameBuffer.SetDebugName shadowBuffer n w
    | none => w
  -- entt::entity entity = scene->CreateEntity()
  let (entity, w) := Scene.CreateEntity w
  -- ShadowLight& light = scene->Registry().assign<ShadowLight>(entity);
  -- light.ShadowBuffer = shadowBuffer; light.Projection = glm::perspective(...);
  -- light.Attenuation = 1.0f / distance; light.Color = glm::vec3(1.0f)
  let light : ShadowLight :=
    { ShadowBuffer := some shadowBuffer,
      Projection := some (Mat4.perspective (Angle.radiansOfDeg fov)
        ((bufferSize.1 : ℚ) / (bufferSize.2 : ℚ)) (1 / 4) distance),
      Attenuation := 1 / distance,
      Color := ⟨1, 1, 1⟩ }
  let w := emit (Call.assignShadowLight entity)
    { w with scene :=
        { w.scene with shadowLights := w.scene.shadowLights ++ [(entity, light)] } }
  -- Transform& t = scene->Registry().get<Transform>(entity);
  -- t.SetPosition(pos); t.LookAt(target, up)
  let w := emit (Call.getTransform entity) w
  let w := setTransform entity (fun t => t.SetPosition pos) w
  let w := setTransform entity (fun t => t.LookAt target up) w
  -- if (entityOut != nullptr) *entityOut = entity
  let written := if passEntityOut then some entity else none
  (w, entity, written)

/-- The function-static cache of CreateSolidTexture: the color-to-texture map
(in insertion order) and the id the next constructed texture object gets. -/
structure TexCache where
  entries : List (Vec4 × Nat) := []
  nextId : Nat := 0
deriving DecidableEq

/-- `cache.find(color)`: the cached texture for a color, if any. -/
def lookupColor : List (Vec4 × Nat) → Vec4 → Option Nat
  | [], _ => none
  | p :: rest, c => if p.1 = c then some p.2 else lookupColor rest c

/-- CreateSolidTexture (SceneBuildLayer.cpp lines 69-104): on a cache hit,
return the cached texture; on a miss, build the one-pixel description and
data, construct a texture, load the pixel, cache it and return it. -/
def CreateSolidTexture (color : Vec4) (cache : TexCache) (w : World) :
    Nat × TexCache × World :=
  match lookupColor cache.entries color with
  | some t => (t, cache, w)
  | none =>
    let desc : Texture2dDescription :=
      { Width := 1, Height := 1, Format := InternalFormat.RGBA8,
        MagFilter := MagFilter.Nearest, MinFilter := MinFilter.Nearest,
        MipmapLevels := 1, WrapS := WrapMode.ClampToEdge, WrapT := WrapMode.ClampToEdge }
    let data : Texture2dData :=
      { Width := 1, Height := 1, Format := PixelFormat.Rgba,
        DataType := PixelType.Float, DataPtr := color }
    let result := cache.nextId
    let w := emit (Call.makeTexture2D result desc) w
    let w := emit (Call.texSetData result data) w
    (result, { entries := cache.entries ++ [(color, result)], nextId := result + 1 }, w)

namespace SceneBuilder

/-- SceneBuilder::Initialize (SceneBuildLayer.cpp lines 106-263), run from
program start.  `winW`, `winH` are what `app->GetWindow()->GetWidth()` and
`GetHeight()` return at the one place the code reads them (line 216). -/
def Initialize (winW winH : Nat) : World :=
  let w := World.init
  -- auto* scene = SceneManager::RegisterScene("main");
  -- SceneManager::SetCurrentScene("main")
  let w := SceneManager.RegisterScene "main" w
  let w := SceneManager.SetCurrentScene "main" w
  -- MeshData data = ObjLoader::LoadObj("paddle.obj", glm::vec4(1.0f));
  -- MeshData data2 = ObjLoader::LoadObj("ball.obj", glm::vec4(1.0f))
  let (data, w) := ObjLoader.LoadObj "paddle.obj" ⟨1, 1, 1, 1⟩ w
  let (data2, w) := ObjLoader.LoadObj "ball.obj" ⟨1, 1, 1, 1⟩ w
  -- Shader::Sptr shader: lighting.vs.glsl + forward.fs.glsl, linked
  let (shader, w) := makeShaderObj w
  let w := Shader.LoadPart shader ShaderStageType.VertexShader "shaders/lighting.vs.glsl" w
  let w := Shader.LoadPart shader ShaderStageType.FragmentShader "shaders/forward.fs.glsl" w
  let w := Shader.Link shader w
  -- Shader::Sptr emissiveShader: lighting.vs.glsl + forward-emissive.fs.glsl, linked
  let (emissiveShader, w) := makeShaderObj w
  let w := Shader.LoadPart emissiveShader ShaderStageType.VertexShader "shaders/lighting.vs.glsl" w
  let w := Shader.LoadPart emissiveShader ShaderStageType.FragmentShader "shaders/forward-emissive.fs.glsl" w
  let w := Shader.Link emissiveShader w
  -- Material::Sptr monkeyMat = std::make_shared<Material>(emissiveShader); three Set calls
  let (monkeyMat, w) := makeMaterialObj emissiveShader w
  let (tAlbedo1, w) := Texture2D.LoadFromFile "matrix.png" false true true w
  let w := Material.Set monkeyMat "s_Albedo" tAlbedo1 w
  let (tEmissive1, w) := Texture2D.LoadFromFile "monkey_emissive.png" false true true w
  let w := Material.Set monkeyMat "s_Emissive" tEmissive1 w
  let w := Material.Set monkeyMat "a_EmissiveStrength" (MaterialValue.flt 4) w
  -- Material::Sptr paddleMat = std::make_shared<Material>(emissiveShader); three Set calls
  let (paddleMat, w) := makeMaterialObj emissiveShader w
  let (tAlbedo2, w) := Texture2D.LoadFromFile "marble.png" false true true w
  let w := Material.Set paddleMat "s_Albedo" tAlbedo2 w
  let (tEmissive2, w) := Texture2D.LoadFromFile "monkey_emissive.png" false true true w
  let w := Material.Set paddleMat "s_Emissive" tEmissive2 w
  let w := Material.Set paddleMat "a_EmissiveStrength" (MaterialValue.flt 10) w
  -- Material::Sptr marbleMat = std::make_shared<Material>(shader); one Set call
  let (marbleMat, w) := makeMaterialObj shader w
  let (tAlbedo3, w) := Texture2D.LoadFromFile "marble.png" false true true w
  let w := Material.Set marbleMat "s_Albedo" tAlbedo3 w
  -- Material::Sptr mat2 = std::make_shared<Material>(emissiveShader); three Set calls
  let (mat2, w) := makeMaterialObj emissiveShader w
  let (tAlbedo4, w) := Texture2D.LoadFromFile "polka.png" false true true w
  let w := Material.Set mat2 "s_Albedo" tAlbedo4 w
  let (tEmissive4, w) := Texture2D.LoadFromFile "polka.png" false true true w
  let w := Material.Set mat2 "s_Emissive" tEmissive4 w
  let w := Material.Set mat2 "a_EmissiveStrength" (MaterialValue.flt 1) w
  -- "The central monkey" block (lines 154-163): the ball mesh, paddleMat,
  -- and a ControlBehaviour(glm::vec3(1.0f))
  let (test, w) := Scene.CreateEntity w
  let w := Registry.assignRenderable test w
  let (mesh2, w) := MeshBuilder.Bake data2 w
  let w := setRenderable test (fun r => { r with Mesh := some mesh2 }) w
  let w := setRenderable test (fun r => { r with Material := some paddleMat }) w
  let w := emit (Call.getTransform test) w
  let w := Scene.AddBehaviour test (Behaviour.control ⟨1, 1, 1⟩) w
  -- "The central monkey 2" block (lines 165-175): the paddle mesh, monkeyMat,
  -- RotateBehaviour(vec3(45, 45, 45)) and RandomBehaviour
  let (test, w) := Scene.CreateEntity w
  let w := Registry.assignRenderable test w
  let (mesh1, w) := MeshBuilder.Bake data w
  let w := setRenderable test (fun r => { r with Mesh := some mesh1 }) w
  let w := setRenderable test (fun r => { r with Material := some monkeyMat }) w
  let w := emit (Call.getTransform test) w
  let w := Scene.AddBehaviour test (Behaviour.rotate ⟨45, 45, 45⟩) w
  let w := Scene.AddBehaviour test Behaviour.random w
  -- "The central monkey 3" block (lines 177-187): the paddle mesh, monkeyMat,
  -- RotateBehaviour(vec3(-45, -45, -45)) and RandomBehaviour
  let (test, w) := Scene.CreateEntity w
  let w := Registry.assignRenderable test w
  let (mesh1b, w) := MeshBuilder.Bake data w
  let w := setRenderable test (fun r => { r with Mesh := some mesh1b }) w
  let w := setRenderable test (fun r => { r with Material := some monkeyMat }) w
  let w := emit (Call.getTransform test) w
  let w := Scene.AddBehaviour test (Behaviour.rotate ⟨-45, -45, -45⟩) w
  let w := Scene.AddBehaviour test Behaviour.random w
  -- Main camera block (lines 190-241): four RenderBufferDescs, the main
  -- framebuffer over the window's dimensions with 4 samples, the camera entity
  let mainColor : RenderBufferDesc :=
    { ShaderReadable := true, Attachment := RenderTargetAttachment.Color0,
      Format := RenderTargetType.ColorRgb8 }
  let normalBuffer : RenderBufferDesc :=
    { ShaderReadable := true, Attachment := RenderTargetAttachment.Color1,
      Format := RenderTargetType.ColorRgb10 }
  let emissiveBuffer : RenderBufferDesc :=
    { ShaderReadable := true, Attachment := RenderTargetAttachment.Color2,
      Format := RenderTargetType.ColorRgb10 }
  let depth : RenderBufferDesc :=
    { ShaderReadable := true, Attachment := RenderTargetAttachment.Depth,
      Format := RenderTargetType.Depth32 }
  -- std::make_shared<FrameBuffer>(app->GetWindow()->GetWidth(), app->GetWindow()->GetHeight(), 4)
  let w := emit Call.getWindowWidth w
  let w := emit Call.getWindowHeight w
  let (buffer, w) := makeFrameBufferObj winW winH (some 4) w
  let w := FrameBuffer.AddAttachment buffer mainColor w
  let w := FrameBuffer.AddAttachment buffer normalBuffer w
  let w := FrameBuffer.AddAttachment buffer emissiveBuffer w
  let w := FrameBuffer.AddAttachment buffer depth w
  let w := FrameBuffer.Validate buffer w
  let w := FrameBuffer.SetDebugName buffer "MainBuffer" w
  -- entt::entity camera = scene->CreateEntity();
  -- CameraComponent& cam = scene->Registry().assign<CameraComponent>(camera)
  let (camera, w) := Scene.CreateEntity w
  let w := Registry.assignCamera camera w
  -- cam.BackBuffer = buffer
  let w := setCamera camera (fun c => { c with BackBuffer := some buffer }) w
  -- cam.FrontBuffer = buffer->Clone()
  let (cloneId, w) := FrameBuffer.Clone buffer w
  let w := setCamera camera (fun c => { c with FrontBuffer := some cloneId }) w
  -- cam.IsMainCamera = true
  let w := setCamera camera (fun c => { c with IsMainCamera := true }) w
  -- cam.Projection = glm::perspective(glm::radians(60.0f), 1.0f, 0.1f, 1000.0f)
  let camProj := Mat4.perspective (Angle.radiansOfDeg 60) 1 (1 / 10) 1000
  let w := setCamera camera (fun c => { c with Projection := some camProj }) w
  -- auto& camTransform = scene->Registry().get<Transform>(camera);
  -- camTransform.SetPosition(glm::vec3(0, 10, 5)); camTransform.LookAt(0, up (0,1,0))
  let w := emit (Call.getTransform camera) w
  let w := setTransform camera (fun t => t.SetPosition ⟨0, 10, 5⟩) w
  let w := setTransform camera (fun t => t.LookAt ⟨0, 0, 0⟩ ⟨0, 1, 0⟩) w
  -- RenderableComponent& renderable = scene->Registry().assign<RenderableComponent>(camera)
  -- (no field of it is ever set)
  let w := Registry.assignRenderable camera w
  -- const int numMonkeys = 6; const float step = two_pi / numMonkeys;
  -- for (int i = 0; i < 1; i++) { ... }  -- the loop body runs exactly once, at i = 0:
  -- sin(-0 * step) = 0, cos(-0 * step) = 1, sin(-0 * step + pi) = 0,
  -- cos(step * 0) = 1, sin(step * 0) = 0, so every trig value below is exact
  let (entity, w) := Scene.CreateEntity w
  let w := Registry.assignPointLight entity w
  -- light.Color = vec3(0 + 1, 1 + 1, 0 + 1) / 2 * 0.1
  let w := setPointLight entity (fun l => { l with Color := ⟨1 / 20, 1 / 10, 1 / 20⟩ }) w
  -- light.Attenuation = 1.0f / 10.0f
  let w := setPointLight entity (fun l => { l with Attenuation := 1 / 10 }) w
  -- Transform& t: t.SetPosition(vec3(cos(0) * 20, 2, sin(0) * 20))
  let w := emit (Call.getTransform entity) w
  let w := setTransform entity (fun t => t.SetPosition ⟨20, 2, 0⟩) w
  -- scene->AddBehaviour<LightFlickerBehaviour>(entity, 2.0f, 0.6f, 1.2f)
  let w := Scene.AddBehaviour entity (Behaviour.lightFlicker 2 (3 / 5) (6 / 5)) w
  w

end SceneBuilder

/-- Whether an engine call starts a thread or defers work (no call this code
makes does either). -/
def Call.isConcurrent : Call → Bool
  | Call.spawnThread _ => true
  | Call.scheduleDeferred _ => true
  | _ => false

/-- Whether entity `e` carries a light component (PointLightComponent or
ShadowLight) in scene `s`. -/
def Scene.hasLight (s : Scene) (e : Nat) : Bool :=
  s.pointLights.any (fun p => decide (p.1 = e)) ||
    s.shadowLights.any (fun p => decide (p.1 = e))

/-- How many entities of scene `s` carry a light component. -/
def Scene.lightEntityCount (s : Scene) : Nat :=
  ((List.range s.nextEntity).filter fun e => s.hasLight e).length

/-- Whether entity `e` has an attached behaviour satisfying `p`. -/
def Scene.hasBehaviour (s : Scene) (e : Nat) (p : Behaviour → Bool) : Bool :=
  s.behaviours.any (fun q => decide (q.1 = e) && p q.2)

/-- Whether a behaviour is a ControlBehaviour. -/
def Behaviour.isControl : Behaviour → Bool
  | Behaviour.control _ => true
  | _ => false

/-- Whether a behaviour is a RotateBehaviour. -/
def Behaviour.isRotate : Behaviour → Bool
  | Behaviour.rotate _ => true
  | _ => false

/-- Whether a behaviour is a RandomBehaviour. -/
def Behaviour.isRandom : Behaviour → Bool
  | Behaviour.random => true
  | _ => false

/-- The engine state with every framebuffer width and height scrubbed to 0,
both in the framebuffer store and in the recorded constructor calls: what is
left is exactly the part of the configuration the window's dimensions cannot
reach. -/
def World.scrubWindowDims (w : World) : World :=
  { w with
    frameBuffers := w.frameBuffers.map (fun f => { f with width := 0, height := 0 }),
    rtrace := w.rtrace.map (fun c =>
      match c with
      | Call.makeFrameBuffer id _ _ s => Call.makeFrameBuffer id 0 0 s
      | c => c) }

/-- `front` is a distinct object cloned from `back` in `w`'s framebuffer store. -/
def cloneRel (w : World) (front back : Option Nat) : Prop :=
  ∃ fi bi, front = some fi ∧ back = some bi ∧
    (w.frameBuffers.get? fi).map FrameBufferObj.clonedFrom = some (some bi)

/-- The calls AudioLayer::Initialize makes, from program start. -/
def audioInitCalls : List Call := (AudioLayer.Initialize World.init).calls

/-- The calls AudioLayer::Update makes. -/
def audioUpdateCalls : List Call := (AudioLayer.Update World.init).calls

/-- The calls AudioLayer::Shutdown makes. -/
def audioShutdownCalls : List Call := (AudioLayer.Shutdown World.init).calls

/-- The calls SceneBuilder::Initialize makes, from program start, given the
window dimensions it reads. -/
def sceneInitCalls (winW winH : Nat) : List Call :=
  (SceneBuilder.Initialize winW winH).calls

/-- The calls CreateShadowCaster makes, given its arguments. -/
def shadowCasterCalls (passEntityOut : Bool) (pos target up : Vec3)
    (distance fov : ℚ) (bufferSize : Nat × Nat) (debugName : Option String) :
    List Call :=
  ((CreateShadowCaster World.init passEntityOut pos target up distance fov
      bufferSize debugName).1).calls

/-- The calls CreateSolidTexture makes, given its argument and cache state. -/
def solidTextureCalls (color : Vec4) (cache : TexCache) : List Call :=
  (CreateSolidTexture color cache World.init).2.2.calls

/-- The fallible semantics of a call sequence against an engine `f` that may
fail any call: the calls run in order and the first failure is returned as
is — the model of code that installs no handler of its own. -/
def runCalls {ε : Type} (f : Call → Except ε Unit) : List Call → Except ε Unit
  | [] => Except.ok ()
  | c :: rest =>
    match f c with
    | Except.error e => Except.error e
    | Except.ok _ => runCalls f rest

theorem runCalls_error_of_split {ε : Type} (f : Call → Except ε Unit) (e : ε)
    (pre post : List Call) (c : Call)
    (hpre : ∀ x ∈ pre, f x = Except.ok ()) (hc : f c = Except.error e) :
    runCalls f (pre ++ c :: post) = Except.error e := by
  induction pre with
  | nil => simp [runCalls, hc]
  | cons a rest ih =>
    have ha : f a = Except.ok () := hpre a (by simp)
    rw [List.cons_append]
    simp only [runCalls, ha]
    exact ih (fun x hx => hpre x (by simp [hx]))

theorem lookupColor_append_self (l : List (Vec4 × Nat)) (c : Vec4) (i : Nat)
    (h : lookupColor l c = none) : lookupColor (l ++ [(c, i)]) c = some i := by
  induction l with
  | nil => simp [lookupColor]
  | cons p rest ih =>
    by_cases hp : p.1 = c
    · simp [lookupColor, hp] at h
    · simp only [List.cons_append, lookupColor, if_neg hp] at h ⊢
      exact ih h

theorem lookupColor_append_other (l : List (Vec4 × Nat)) (c c' : Vec4) (i : Nat)
    (h : c' ≠ c) : lookupColor (l ++ [(c, i)]) c' = lookupColor l c' := by
  induction l with
  | nil => simp [lookupColor, h.symm]
  | cons p rest ih =>
    by_cases hp : p.1 = c'
    · simp [lookupColor, hp]
    · simp only [List.cons_append, lookupColor, if_neg hp]
      exact ih

/-- An engine that fails the LoadSound call with a missing-asset error and
accepts every other call: the concrete interpretation used to witness error
propagation. -/
def failLoad : Call → Except String Unit
  | Call.audioLoadSound _ _ _ _ => Except.error "asset missing"
  | _ => Except.ok ()

-- ===== claim theorems =====

/-- C1: AudioLayer::Initialize performs exactly these engine calls, in this
order — AudioEngine::Init(), AudioEngine::LoadSound("AH.wav", false, true,
true), AudioEngine::PlaySound("AH.wav") — and makes no other call (and changes
nothing else in the engine state). -/
theorem audio_init_call_sequence (w : World) :
    (AudioLayer.Initialize w).calls = w.calls ++
      [Call.audioEngineInit, Call.audioLoadSound "AH.wav" false true true,
       Call.audioPlaySound "AH.wav"] ∧
    { AudioLayer.Initialize w with rtrace := w.rtrace } = w := by
  constructor
  · simp [AudioLayer.Initialize, emit, World.calls, List.reverse_cons, List.append_assoc]
  · rfl

/-- C2: SceneBuilder::Initialize first registers a scene under the name "main"
with the scene manager and then sets "main" as the current scene; these are its
first two engine calls, so they come before any entity, mesh, material or
light is created. -/
theorem scene_registration_order (winW winH : Nat) :
    (SceneBuilder.Initialize winW winH).registeredScenes = ["main"] ∧
    (SceneBuilder.Initialize winW winH).currentScene = some "main" ∧
    ∃ rest, (SceneBuilder.Initialize winW winH).calls =
      Call.registerScene "main" :: Call.setCurrentScene "main" :: rest := by
  have ht : (SceneBuilder.Initialize winW winH).calls.take 2 =
      [Call.registerScene "main", Call.setCurrentScene "main"] := rfl
  refine ⟨rfl, rfl, (SceneBuilder.Initialize winW winH).calls.drop 2, ?_⟩
  conv_lhs => rw [← List.take_append_drop 2 (SceneBuilder.Initialize winW winH).calls]
  rw [ht]
  rfl

/-- C3 counterexample: the scene configuration is NOT identical across runs
with different window dimensions — the main framebuffer is constructed over
`app->GetWindow()->GetWidth()/GetHeight()` (SceneBuildLayer.cpp line 216), so
a run at 800x600 and a run at 1024x768 produce framebuffer stores with
different widths. -/
theorem scene_config_depends_on_window :
    (SceneBuilder.Initialize 800 600).frameBuffers.map FrameBufferObj.width ≠
    (SceneBuilder.Initialize 1024 768).frameBuffers.map FrameBufferObj.width := by
  decide

/-- C3 amended: every configuration value this code supplies is a compile-time
literal except the width and height of the main camera's framebuffer (and of
its clone), which are read from the application window at runtime; with those
dimensions scrubbed, the configuration produced by SceneBuilder::Initialize is
identical in any two runs. -/
theorem scene_config_literal_except_window_dims (w1 h1 w2 h2 : Nat) :
    World.scrubWindowDims (SceneBuilder.Initialize w1 h1) =
    World.scrubWindowDims (SceneBuilder.Initialize w2 h2) := rfl

/-- C4: after SceneBuilder::Initialize runs, exactly one entity of the "main"
scene carries a CameraComponent; that component has IsMainCamera true, a
perspective projection with 60-degree field of view, near plane 0.1, far plane
1000, and its back buffer and front buffer are distinct framebuffer objects,
the front buffer being a clone of the back buffer. -/
theorem main_camera_configuration (winW winH : Nat) :
    ((SceneBuilder.Initialize winW winH).scene.cameras.length = 1) ∧
    ∀ p ∈ (SceneBuilder.Initialize winW winH).scene.cameras,
      p.2.IsMainCamera = true ∧
      p.2.Projection = some (Mat4.perspective (Angle.radiansOfDeg 60) 1 (1 / 10) 1000) ∧
      p.2.BackBuffer ≠ p.2.FrontBuffer ∧
      cloneRel (SceneBuilder.Initialize winW winH) p.2.FrontBuffer p.2.BackBuffer := by
  have hc : (SceneBuilder.Initialize winW winH).scene.cameras =
      [(3, { BackBuffer := some 0, FrontBuffer := some 1, IsMainCamera := true,
             Projection := some (Mat4.perspective (Angle.radiansOfDeg 60) 1 (1 / 10) 1000) })] := rfl
  refine ⟨by rw [hc]; rfl, ?_⟩
  intro p hp
  rw [hc] at hp
  have hp' := List.mem_singleton.mp hp
  subst hp'
  refine ⟨rfl, rfl, by decide, 1, 0, rfl, rfl, rfl⟩

/-- C5 counterexample: after SceneBuilder::Initialize runs (window 800x600),
the "main" scene does NOT contain more than one entity carrying a light
component — the point-light loop bound is `i < 1` and CreateShadowCaster is
never called, so exactly one light entity exists. -/
theorem not_more_than_one_light :
    ¬ 1 < Scene.lightEntityCount (SceneBuilder.Initialize 800 600).scene := by
  decide

/-- C5 amended: SceneBuilder::Initialize constructs exactly one light — after
it runs, precisely one entity of the "main" scene carries a light component,
namely a PointLightComponent; no ShadowLight is ever attached. -/
theorem exactly_one_point_light (winW winH : Nat) :
    Scene.lightEntityCount (SceneBuilder.Initialize winW winH).scene = 1 ∧
    (SceneBuilder.Initialize winW winH).scene.pointLights.length = 1 ∧
    (SceneBuilder.Initialize winW winH).scene.shadowLights = [] :=
  ⟨rfl, rfl, rfl⟩

/-- C6: SceneBuilder::Initialize loads the meshes "paddle.obj" and "ball.obj",
and every renderable entity created from those meshes has at least one
behaviour component attached: a ControlBehaviour for the ball-mesh entity, and
a RotateBehaviour and a RandomBehaviour for each paddle-mesh entity. -/
theorem paddle_ball_meshes_and_behaviours (winW winH : Nat) :
    (Call.loadObj "paddle.obj" ⟨1, 1, 1, 1⟩ ∈ (SceneBuilder.Initialize winW winH).calls ∧
     Call.loadObj "ball.obj" ⟨1, 1, 1, 1⟩ ∈ (SceneBuilder.Initialize winW winH).calls) ∧
    ∀ p ∈ (SceneBuilder.Initialize winW winH).scene.renderables,
      (p.2.Mesh = some "ball.obj" →
        Scene.hasBehaviour (SceneBuilder.Initialize winW winH).scene p.1
          Behaviour.isControl = true) ∧
      (p.2.Mesh = some "paddle.obj" →
        Scene.hasBehaviour (SceneBuilder.Initialize winW winH).scene p.1
          Behaviour.isRotate = true ∧
        Scene.hasBehaviour (SceneBuilder.Initialize winW winH).scene p.1
          Behaviour.isRandom = true) := by
  constructor
  · have h4 : (SceneBuilder.Initialize winW winH).calls.take 4 =
        [Call.registerScene "main", Call.setCurrentScene "main",
         Call.loadObj "paddle.obj" ⟨1, 1, 1, 1⟩, Call.loadObj "ball.obj" ⟨1, 1, 1, 1⟩] := rfl
    exact ⟨List.take_subset 4 _ (by rw [h4]; decide),
           List.take_subset 4 _ (by rw [h4]; decide)⟩
  · intro p hp
    have hr : (SceneBuilder.Initialize winW winH).scene.renderables =
        [(0, { Mesh := some "ball.obj", Material := some 1 }),
         (1, { Mesh := some "paddle.obj", Material := some 0 }),
         (2, { Mesh := some "paddle.obj", Material := some 0 }),
         (3, {})] := rfl
    rw [hr] at hp
    simp only [List.mem_cons, List.not_mem_nil, or_false] at hp
    rcases hp with rfl | rfl | rfl | rfl
    · exact ⟨fun _ => rfl, fun hm => absurd hm (by decide)⟩
    · exact ⟨fun hm => absurd hm (by decide), fun _ => ⟨rfl, rfl⟩⟩
    · exact ⟨fun hm => absurd hm (by decide), fun _ => ⟨rfl, rfl⟩⟩
    · exact ⟨fun hm => absurd hm (by decide), fun hm => absurd hm (by decide)⟩

/-- C7: no function of this code performs custom error handling.  Each
function's fallible semantics runs its engine calls in order with no handler
installed, so against any engine interpretation in which some call fails —
e.g. a missing asset file — while the calls before it succeed, every one of
AudioLayer::Initialize / Update / Shutdown, SceneBuilder::Initialize,
CreateShadowCaster and CreateSolidTexture returns exactly the engine's error,
unchanged. -/
theorem no_custom_error_handling {ε : Type} (f : Call → Except ε Unit) (e : ε)
    (pre post : List Call) (c : Call)
    (winW winH : Nat) (passEntityOut : Bool) (pos target up : Vec3)
    (distance fov : ℚ) (bufferSize : Nat × Nat) (debugName : Option String)
    (color : Vec4) (cache : TexCache)
    (hpre : ∀ x ∈ pre, f x = Except.ok ()) (hc : f c = Except.error e) :
    (audioInitCalls = pre ++ c :: post →
      runCalls f audioInitCalls = Except.error e) ∧
    (audioUpdateCalls = pre ++ c :: post →
      runCalls f audioUpdateCalls = Except.error e) ∧
    (audioShutdownCalls = pre ++ c :: post →
      runCalls f audioShutdownCalls = Except.error e) ∧
    (sceneInitCalls winW winH = pre ++ c :: post →
      runCalls f (sceneInitCalls winW winH) = Except.error e) ∧
    (shadowCasterCalls passEntityOut pos target up distance fov bufferSize debugName
        = pre ++ c :: post →
      runCalls f (shadowCasterCalls passEntityOut pos target up distance fov
        bufferSize debugName) = Except.error e) ∧
    (solidTextureCalls color cache = pre ++ c :: post →
      runCalls f (solidTextureCalls color cache) = Except.error e) := by
  have g : ∀ tr : List Call, tr = pre ++ c :: post →
      runCalls f tr = Except.error e := by
    intro tr htr
    rw [htr]
    exact runCalls_error_of_split f e pre post c hpre hc
  exact ⟨g _, g _, g _, g _, g _, g _⟩

/-- C7 witness: against the concrete engine `failLoad`, which fails the
LoadSound call with "asset missing", AudioLayer::Initialize returns exactly
that error. -/
theorem no_custom_error_handling_witness :
    runCalls failLoad audioInitCalls = Except.error "asset missing" := by
  have h := no_custom_error_handling failLoad "asset missing"
      [Call.audioEngineInit] [Call.audioPlaySound "AH.wav"]
      (Call.audioLoadSound "AH.wav" false true true)
      0 0 false ⟨0, 0, 0⟩ ⟨0, 0, 0⟩ ⟨0, 1, 0⟩ 10 60 (1024, 1024) none ⟨1, 1, 1, 1⟩ {}
      (by intro x hx; simp at hx; subst hx; rfl) rfl
  exact h.1 rfl

/-- C8: all code in this repository executes as a single, synchronous sequence
of engine calls: none of the calls made by AudioLayer::Initialize / Update /
Shutdown, SceneBuilder::Initialize, CreateShadowCaster or CreateSolidTexture
spawns a thread or schedules deferred work, whatever the arguments and cache
state. -/
theorem no_concurrency_calls (winW winH : Nat) (passEntityOut : Bool)
    (pos target up : Vec3) (distance fov : ℚ) (bufferSize : Nat × Nat)
    (debugName : Option String) (color : Vec4) (cache : TexCache) :
    (audioInitCalls.all (fun c => !c.isConcurrent) = true) ∧
    (audioUpdateCalls.all (fun c => !c.isConcurrent) = true) ∧
    (audioShutdownCalls.all (fun c => !c.isConcurrent) = true) ∧
    ((sceneInitCalls winW winH).all (fun c => !c.isConcurrent) = true) ∧
    ((shadowCasterCalls passEntityOut pos target up distance fov bufferSize
        debugName).all (fun c => !c.isConcurrent) = true) ∧
    ((solidTextureCalls color cache).all (fun c => !c.isConcurrent) = true) := by
  refine ⟨rfl, rfl, rfl, rfl, ?_, ?_⟩
  · unfold shadowCasterCalls CreateShadowCaster
    cases debugName <;> rfl
  · unfold solidTextureCalls CreateSolidTexture
    cases lookupColor cache.entries color <;> rfl

/-- C9: CreateSolidTexture is cached and idempotent — two successive calls
with the same color return the same texture object; the second call constructs
nothing and changes neither the cache nor the engine state; a call leaves
every cache entry for a different color unchanged, and grows the cache by at
most one entry. -/
theorem createSolidTexture_cache_idempotent (color : Vec4) (cache : TexCache) (w : World) :
    ((CreateSolidTexture color (CreateSolidTexture color cache w).2.1
        (CreateSolidTexture color cache w).2.2).1 =
      (CreateSolidTexture color cache w).1) ∧
    ((CreateSolidTexture color (CreateSolidTexture color cache w).2.1
        (CreateSolidTexture color cache w).2.2).2.1 =
      (CreateSolidTexture color cache w).2.1) ∧
    ((CreateSolidTexture color (CreateSolidTexture color cache w).2.1
        (CreateSolidTexture color cache w).2.2).2.2 =
      (CreateSolidTexture color cache w).2.2) ∧
    (∀ c', c' ≠ color →
      lookupColor (CreateSolidTexture color cache w).2.1.entries c' =
      lookupColor cache.entries c') ∧
    ((CreateSolidTexture color cache w).2.1.entries.length ≤ cache.entries.length + 1) := by
  rcases h : lookupColor cache.entries color with _ | t
  · have h2 : lookupColor (cache.entries ++ [(color, cache.nextId)]) color =
        some cache.nextId := lookupColor_append_self _ _ _ h
    refine ⟨?_, ?_, ?_, ?_, ?_⟩
    · simp [CreateSolidTexture, h, h2]
    · simp [CreateSolidTexture, h, h2]
    · simp [CreateSolidTexture, h, h2]
    · intro c' hc'
      simp only [CreateSolidTexture, h]
      exact lookupColor_append_other _ _ _ _ hc'
    · simp [CreateSolidTexture, h]
  · refine ⟨?_, ?_, ?_, ?_, ?_⟩
    · simp [CreateSolidTexture, h]
    · simp [CreateSolidTexture, h]
    · simp [CreateSolidTexture, h]
    · intro c' _
      simp [CreateSolidTexture, h]
    · simp [CreateSolidTexture, h, Nat.le_succ]

/-- C10: for every engine state and arguments, CreateShadowCaster creates
exactly one new entity (attaching the ShadowLight it returns to that entity
and touching no other entity's camera, point-light or renderable components);
when the `entityOut` pointer is null nothing is written through it, and when
it is non-null the new entity's id is written through it. -/
theorem createShadowCaster_entity_and_out (w : World) (passEntityOut : Bool)
    (pos target up : Vec3) (distance fov : ℚ) (bufferSize : Nat × Nat)
    (debugName : Option String) :
    ((CreateShadowCaster w passEntityOut pos target up distance fov bufferSize
        debugName).1.scene.nextEntity = w.scene.nextEntity + 1) ∧
    ((CreateShadowCaster w passEntityOut pos target up distance fov bufferSize
        debugName).2.1 = w.scene.nextEntity) ∧
    (∃ light, (CreateShadowCaster w passEntityOut pos target up distance fov bufferSize
        debugName).1.scene.shadowLights =
      w.scene.shadowLights ++ [(w.scene.nextEntity, light)]) ∧
    ((CreateShadowCaster w passEntityOut pos target up distance fov bufferSize
        debugName).1.scene.cameras = w.scene.cameras) ∧
    ((CreateShadowCaster w passEntityOut pos target up distance fov bufferSize
        debugName).1.scene.pointLights = w.scene.pointLights) ∧
    ((CreateShadowCaster w passEntityOut pos target up distance fov bufferSize
        debugName).1.scene.renderables = w.scene.renderables) ∧
    ((CreateShadowCaster w passEntityOut pos target up distance fov bufferSize
        debugName).2.2 = if passEntityOut then some w.scene.nextEntity else none) := by
  cases debugName <;>
    exact ⟨rfl, rfl, ⟨_, rfl⟩, rfl, rfl, rfl, rfl⟩
